import Mathlib

/-!
Verification of the target-lowering subsystem of the charj compiler
(`dc_compiler/src/lowerify/classic_target.rs`).

The visible source is the lowering driver `ClassicTarget::build`:

  pub struct ClassicTarget {}
  impl ClassicTarget {
    pub fn build<'a>(filename, context, ns) -> CodeObject<'a> {
      let target = ClassicTarget {};
      let mut structure = CodeObject::new(context, filename, ns, "x86_64");
      for cfg in &ns.cfgs {
        target.emit_function(&mut structure, &cfg);
      }
      structure
    }
  }

`Namespace`, `CodeObject`, and the `BaseTarget` capability (`emit_function`)
are declared elsewhere and are not part of the visible source; they are
modelled here from the specification (sections 3, 4.1, 4.2, 4.3, 6, 7).
Each such definition is marked `Modelled from the spec:` in its doc comment.
Failure of the missing emission code (the spec's `LoweringError`,
`UnsupportedArchitecture` and `DuplicateEmission` aborts) is modelled with
the `Except` monad: an aborted build returns an error and no code object.
-/

/-- Modelled from the spec: the compilation context handle ("compilation
context handle", section 6; the Rust source borrows an `inkwell` LLVM
`Context`).  Its internals are opaque to the lowering subsystem, so it is
modelled as an abstract handle. -/
structure Context where
  id : Nat
  deriving DecidableEq, Repr

/-- Modelled from the spec: successor edges of a basic block — "a set of
successor edges (unconditional, conditional-true/false, or none for a
terminating block)" (section 3).  Block targets are identified by label. -/
inductive SuccEdge where
  | uncond (target : Nat)
  | condBr (ifTrue ifFalse : Nat)
  | term
  deriving DecidableEq, Repr

/-- Modelled from the spec: an intermediate-representation instruction.  The
spec does not fix the instruction set; an instruction carries an abstract
opcode and whether the target architecture has a machine mapping for it
("an intermediate-representation instruction with no target-architecture
mapping", section 8). -/
structure IRInstr where
  opcode : Nat
  mappable : Bool
  deriving DecidableEq, Repr

/-- Modelled from the spec: a basic block — "each basic block holds an
ordered sequence of intermediate-representation instructions and a set of
successor edges" (section 3). -/
structure BasicBlock where
  label : Nat
  instrs : List IRInstr
  succ : SuccEdge
  deriving DecidableEq, Repr

/-- Modelled from the spec: a control-flow graph — "a function identity
(name/signature) plus a graph of basic blocks" (section 3).  The first block
of the list is the designated entry block. -/
structure CFG where
  identity : String
  blocks : List BasicBlock
  deriving DecidableEq, Repr

/-- The namespace handed to the lowering driver.  The source iterates the
field `ns.cfgs`; per the spec a Namespace is "an ordered collection of CFGs
representing an entire compiled program/module" (section 2). -/
structure Namespace where
  cfgs : List CFG
  deriving DecidableEq, Repr

/-- Modelled from the spec: namespace well-formedness, the upstream
collaborator's obligation (sections 3 and 6): every CFG has a designated
entry block, and function identities are stable and pairwise distinct (the
"at most one emitted entry per function identity" invariant is a namespace
well-formedness obligation of the caller). -/
def Namespace.wellFormed (ns : Namespace) : Prop :=
  (ns.cfgs.map CFG.identity).Nodup ∧ ∀ cfg ∈ ns.cfgs, cfg.blocks ≠ []

instance (ns : Namespace) : Decidable ns.wellFormed := by
  unfold Namespace.wellFormed
  infer_instance

/-- Modelled from the spec: a lowered machine basic block — the emitted
"instruction stream (with block labels preserving control-flow edges)"
(section 4.3).  Machine instructions are abstract encodings. -/
structure MachineBlock where
  label : Nat
  code : List Nat
  succ : SuccEdge
  deriving DecidableEq, Repr

/-- Modelled from the spec: the error taxonomy of section 7:
`UnsupportedArchitecture`, `LoweringError { function_identity, reason }`
(the reason here is the opcode of the unsupported construct), and
`DuplicateEmission { function_identity }`. -/
inductive BuildError where
  | unsupportedArchitecture (triple : String)
  | loweringError (functionIdentity : String) (opcode : Nat)
  | duplicateEmission (functionIdentity : String)
  deriving DecidableEq, Repr

/-- Modelled from the spec: the Code Object — "owns a target triple string
..., a reference to the originating namespace ..., and a growable mapping
from function identity to emitted machine-level representation" (section 3),
associated with the compilation context and source filename (section 4.1). -/
structure CodeObject where
  context : Context
  filename : String
  ns : Namespace
  triple : String
  functions : List (String × List MachineBlock)
  deriving DecidableEq, Repr

/-- Modelled from the spec: the architecture triples recognized by the
underlying code-emission context.  The spec fixes only that "x86_64" is a
supported triple (sections 3 and 8). -/
def recognizedTriples : List String :=
  ["x86_64"]

/-- Modelled from the spec: `CodeObject::new(context, filename, namespace,
architecture_triple)` — "constructs an empty object tagged with the given
architecture identifier ....  Fails only if the architecture triple is
unrecognized by the underlying code-emission context" (section 4.1); an
unrecognized triple is the `UnsupportedArchitecture` error of section 7. -/
def CodeObject.new (context : Context) (filename : String) (ns : Namespace)
    (triple : String) : Except BuildError CodeObject :=
  if triple ∈ recognizedTriples then
    .ok { context := context, filename := filename, ns := ns, triple := triple,
          functions := [] }
  else
    .error (.unsupportedArchitecture triple)

/-- Modelled from the spec: instruction selection for one basic block's
instruction sequence — "mapping intermediate-representation operations to
one or more machine instructions" (section 4.3).  An instruction with no
target-architecture mapping fails with a `LoweringError` "identifying the
function and the unsupported construct" (section 4.2). -/
def selectInstrs (fid : String) : List IRInstr → Except BuildError (List Nat)
  | [] => .ok []
  | i :: rest =>
    if i.mappable then
      match selectInstrs fid rest with
      | .ok code => .ok (i.opcode :: code)
      | .error e => .error e
    else
      .error (.loweringError fid i.opcode)

/-- Modelled from the spec: lowering one basic block; the machine block
keeps the block label and the successor edges, "preserving control-flow
edges" (section 4.3). -/
def lowerBlock (fid : String) (b : BasicBlock) : Except BuildError MachineBlock :=
  match selectInstrs fid b.instrs with
  | .ok code => .ok { label := b.label, code := code, succ := b.succ }
  | .error e => .error e

/-- Modelled from the spec: lowering every basic block of a function, in
block order. -/
def lowerBlocks (fid : String) : List BasicBlock → Except BuildError (List MachineBlock)
  | [] => .ok []
  | b :: rest =>
    match lowerBlock fid b with
    | .ok mb =>
      match lowerBlocks fid rest with
      | .ok mbs => .ok (mb :: mbs)
      | .error e => .error e
    | .error e => .error e

/-- Modelled from the spec: per-function instruction selection — translate
"one control-flow graph's basic blocks into the target's machine
representation" (section 4.2). -/
def lowerCFG (cfg : CFG) : Except BuildError (List MachineBlock) :=
  lowerBlocks cfg.identity cfg.blocks

/-- Modelled from the spec: `record_function(identity, machine_body)` —
"inserts the lowered body for a function.  Precondition: identity not
already recorded in this object.  Violating this is a
programming-error-class failure" (section 4.1), the `DuplicateEmission`
error of section 7. -/
def CodeObject.record_function (obj : CodeObject) (identity : String)
    (body : List MachineBlock) : Except BuildError CodeObject :=
  if identity ∈ obj.functions.map Prod.fst then
    .error (.duplicateEmission identity)
  else
    .ok { obj with functions := obj.functions ++ [(identity, body)] }

/-- The concrete target of `classic_target.rs`: `pub struct ClassicTarget {}`
— a field-less pure strategy object. -/
structure ClassicTarget where
  deriving DecidableEq, Repr

/-- Modelled from the spec: the `BaseTarget` capability `emit_function(
code_object, cfg)` as implemented by the classic target (sections 4.2 and
4.3): lower the CFG's blocks and record the result into the code object
under the function's identity.  A function is recorded only after its whole
body lowered successfully ("an emission either fully records a function's
body or returns a failure with nothing recorded for that identity",
section 5). -/
def ClassicTarget.emit_function (_t : ClassicTarget) (obj : CodeObject)
    (cfg : CFG) : Except BuildError CodeObject :=
  match lowerCFG cfg with
  | .ok body => obj.record_function cfg.identity body
  | .error e => .error e

/-- The driver loop of `ClassicTarget::build`:
`for cfg in &ns.cfgs { target.emit_function(&mut structure, &cfg); }`.
The loop threads the mutable code object through the successive
`emit_function` calls; an emission failure aborts the build (section 4.2).
The first component instruments the loop with the list of CFGs actually
passed to `emit_function`, in call order (a failing call is still a call);
the second component is the loop's result. -/
def ClassicTarget.emitLoop (t : ClassicTarget) :
    CodeObject → List CFG → List CFG × Except BuildError CodeObject
  | obj, [] => ([], .ok obj)
  | obj, cfg :: rest =>
    match ClassicTarget.emit_function t obj cfg with
    | .ok obj' =>
      let p := ClassicTarget.emitLoop t obj' rest
      (cfg :: p.fst, p.snd)
    | .error e => ([cfg], .error e)

/-- `ClassicTarget::build(filename, context, ns)` from the source: construct
a `ClassicTarget {}` value, create the code object via
`CodeObject::new(context, filename, ns, "x86_64")`, emit every CFG of
`ns.cfgs` in order, and return the code object.  Failure of the modelled
emission code surfaces as an `Except.error` (the build aborts, section 4.2). -/
def ClassicTarget.build (filename : String) (context : Context)
    (ns : Namespace) : Except BuildError CodeObject :=
  let target : ClassicTarget := {}
  match CodeObject.new context filename ns "x86_64" with
  | .ok obj => (ClassicTarget.emitLoop target obj ns.cfgs).snd
  | .error e => .error e

/-- The instrumentation of `ClassicTarget.build`: the list of CFGs passed to
`emit_function` during the build, in call order. -/
def ClassicTarget.buildTrace (filename : String) (context : Context)
    (ns : Namespace) : List CFG :=
  match CodeObject.new context filename ns "x86_64" with
  | .ok obj => (ClassicTarget.emitLoop {} obj ns.cfgs).fst
  | .error _ => []

/-- Modelled from the spec: the build invocation surface of section 6 — "a
single operation taking (compilation context handle, source filename for
diagnostics, Namespace, architecture-triple string) and returning either a
completed Code Object or a `LoweringError`".  It constructs the code object
for the requested triple and runs the same driver loop. -/
def buildWithTriple (filename : String) (context : Context) (ns : Namespace)
    (triple : String) : Except BuildError CodeObject :=
  match CodeObject.new context filename ns triple with
  | .ok obj => (ClassicTarget.emitLoop {} obj ns.cfgs).snd
  | .error e => .error e

def sampleContext : Context :=
  { id := 0 }

def addInstr : IRInstr :=
  { opcode := 1, mappable := true }

def subInstr : IRInstr :=
  { opcode := 2, mappable := true }

def exoticInstr : IRInstr :=
  { opcode := 7, mappable := false }

def mainCFG : CFG :=
  { identity := "main",
    blocks := [{ label := 0, instrs := [addInstr, subInstr], succ := .term }] }

def helperCFG : CFG :=
  { identity := "helper",
    blocks := [{ label := 0, instrs := [addInstr], succ := .term }] }

def badCFG : CFG :=
  { identity := "broken",
    blocks := [{ label := 0, instrs := [exoticInstr], succ := .term }] }

def sampleNS : Namespace :=
  { cfgs := [helperCFG, mainCFG] }


def emptyNS : Namespace :=
  { cfgs := [] }

def badNS : Namespace :=
  { cfgs := [mainCFG, badCFG] }

def dupNS : Namespace :=
  { cfgs := [mainCFG, mainCFG] }

/-- The empty code object `ClassicTarget.build` creates for `sampleNS`. -/
def emptySample : CodeObject :=
  { context := sampleContext, filename := "main.cj", ns := sampleNS,
    triple := "x86_64", functions := [] }

/-- The code object after emitting `mainCFG` into `emptySample`. -/
def afterMain : CodeObject :=
  { emptySample with
    functions := [("main", [{ label := 0, code := [1, 2], succ := .term }])] }

/-- The code object `ClassicTarget.build` produces for `sampleNS`. -/
def builtSample : CodeObject :=
  { context := sampleContext, filename := "main.cj", ns := sampleNS,
    triple := "x86_64",
    functions := [("helper", [{ label := 0, code := [1], succ := .term }]),
                  ("main", [{ label := 0, code := [1, 2], succ := .term }])] }

lemma CodeObject.new_x86_64 (context : Context) (filename : String) (ns : Namespace) :
    CodeObject.new context filename ns "x86_64" =
      .ok { context := context, filename := filename, ns := ns, triple := "x86_64",
            functions := [] } :=
  rfl

/-- Unfolding `ClassicTarget.build` past the always-successful
`CodeObject::new(context, filename, ns, "x86_64")` call. -/
lemma ClassicTarget.build_eq (filename : String) (context : Context) (ns : Namespace) :
    ClassicTarget.build filename context ns =
      (ClassicTarget.emitLoop {}
        { context := context, filename := filename, ns := ns, triple := "x86_64",
          functions := [] } ns.cfgs).snd :=
  rfl

lemma ClassicTarget.buildTrace_eq (filename : String) (context : Context) (ns : Namespace) :
    ClassicTarget.buildTrace filename context ns =
      (ClassicTarget.emitLoop {}
        { context := context, filename := filename, ns := ns, triple := "x86_64",
          functions := [] } ns.cfgs).fst :=
  rfl

/-- A successful `emit_function` call means the whole CFG lowered, its
identity was not yet recorded, and the only change to the code object is the
appended entry for that identity. -/
lemma emit_function_ok {t : ClassicTarget} {obj : CodeObject} {cfg : CFG}
    {obj' : CodeObject} (h : ClassicTarget.emit_function t obj cfg = .ok obj') :
    ∃ body, lowerCFG cfg = .ok body ∧
      cfg.identity ∉ obj.functions.map Prod.fst ∧
      obj' = { obj with functions := obj.functions ++ [(cfg.identity, body)] } := by
  unfold ClassicTarget.emit_function CodeObject.record_function at h
  split at h
  · split at h
    · cases h
    · rename_i body hl hmem
      injection h with h
      exact ⟨body, hl, hmem, h.symm⟩
  · cases h

/-- Invariant of the driver loop on its success path: the trace of
`emit_function` calls is exactly the list of CFGs in order, the context,
filename, namespace and triple of the code object are untouched, and the
recorded identities are the initial ones followed by the CFGs' identities in
namespace order. -/
lemma emitLoop_ok {t : ClassicTarget} (cfgs : List CFG) :
    ∀ (obj : CodeObject) (tr : List CFG) (co : CodeObject),
      ClassicTarget.emitLoop t obj cfgs = (tr, .ok co) →
      tr = cfgs ∧ co.context = obj.context ∧ co.filename = obj.filename ∧
      co.ns = obj.ns ∧ co.triple = obj.triple ∧
      co.functions.map Prod.fst =
        obj.functions.map Prod.fst ++ cfgs.map CFG.identity := by
  induction cfgs with
  | nil =>
    intro obj tr co h
    simp only [ClassicTarget.emitLoop, Prod.mk.injEq] at h
    obtain ⟨htr, hco⟩ := h
    injection hco with hco
    subst htr
    subst hco
    simp
  | cons c rest ih =>
    intro obj tr co h
    simp only [ClassicTarget.emitLoop] at h
    cases he : ClassicTarget.emit_function t obj c with
    | error e =>
      rw [he] at h
      simp only [Prod.mk.injEq] at h
      cases h.2
    | ok obj' =>
      rw [he] at h
      have h2 : (c :: (ClassicTarget.emitLoop t obj' rest).1,
          (ClassicTarget.emitLoop t obj' rest).2) = (tr, .ok co) := h
      rcases hp : ClassicTarget.emitLoop t obj' rest with ⟨tr', r⟩
      rw [hp] at h2
      simp only [Prod.mk.injEq] at h2
      obtain ⟨htr, hr⟩ := h2
      obtain ⟨htr', hctx, hfn, hns, htrip, hfns⟩ :=
        ih obj' tr' co (by rw [hp, hr])
      obtain ⟨body, _, _, hobj'⟩ := emit_function_ok he
      subst hobj'
      subst htr'
      refine ⟨htr.symm, hctx, hfn, hns, htrip, ?_⟩
      simp only [List.map_append, List.map_cons, List.map_nil] at hfns
      simp [hfns]

/-- If some CFG in the list fails to lower, the driver loop fails: an
emission error aborts the whole loop and no code object is produced. -/
lemma emitLoop_err {t : ClassicTarget} (cfgs : List CFG) :
    ∀ (obj : CodeObject) (cfg : CFG) (e : BuildError),
      cfg ∈ cfgs → lowerCFG cfg = .error e →
      ∃ e', (ClassicTarget.emitLoop t obj cfgs).snd = .error e' := by
  induction cfgs with
  | nil =>
    intro obj cfg e hmem _
    cases hmem
  | cons c rest ih =>
    intro obj cfg e hmem hl
    simp only [ClassicTarget.emitLoop]
    cases he : ClassicTarget.emit_function t obj c with
    | error e2 => exact ⟨e2, rfl⟩
    | ok obj' =>
      rcases List.mem_cons.mp hmem with hcfg | hcfg
      · exfalso
        obtain ⟨body, hbody, _, _⟩ := emit_function_ok he
        subst hcfg
        rw [hbody] at hl
        cases hl
      · obtain ⟨e', he'⟩ := ih obj' cfg e hcfg hl
        exact ⟨e', he'⟩

/-- Driver loop equation: empty CFG list, no emission. -/
lemma emitLoop_nil (t : ClassicTarget) (obj : CodeObject) :
    ClassicTarget.emitLoop t obj [] = ([], .ok obj) :=
  rfl

/-- Driver loop equation: the head emission succeeded. -/
lemma emitLoop_cons_ok {t : ClassicTarget} {obj : CodeObject} {c : CFG}
    {obj' : CodeObject} (he : ClassicTarget.emit_function t obj c = .ok obj')
    (rest : List CFG) :
    ClassicTarget.emitLoop t obj (c :: rest) =
      (c :: (ClassicTarget.emitLoop t obj' rest).fst,
       (ClassicTarget.emitLoop t obj' rest).snd) := by
  simp only [ClassicTarget.emitLoop]
  rw [he]

/-- Driver loop equation: the head emission failed, aborting the loop; the
failing call is still part of the call trace. -/
lemma emitLoop_cons_err {t : ClassicTarget} {obj : CodeObject} {c : CFG}
    {e : BuildError} (he : ClassicTarget.emit_function t obj c = .error e)
    (rest : List CFG) :
    ClassicTarget.emitLoop t obj (c :: rest) = ([c], .error e) := by
  simp only [ClassicTarget.emitLoop]
  rw [he]

/-- A one-element CFG list always produces exactly one `emit_function` call,
whether or not that call succeeds. -/
lemma emitLoop_single_fst (t : ClassicTarget) (obj : CodeObject) (c : CFG) :
    (ClassicTarget.emitLoop t obj [c]).fst = [c] := by
  cases he : ClassicTarget.emit_function t obj c with
  | ok obj' => simp [emitLoop_cons_ok he, emitLoop_nil]
  | error e => simp [emitLoop_cons_err he]

/-- Characterization of a successful build: the call trace is the whole CFG
list in namespace order, the code object keeps the context, filename,
namespace and triple it was created with, and the recorded identities are
the CFGs' identities in namespace order. -/
lemma build_ok_spec {filename : String} {context : Context} {ns : Namespace}
    {co : CodeObject} (h : ClassicTarget.build filename context ns = .ok co) :
    ClassicTarget.buildTrace filename context ns = ns.cfgs ∧
    co.context = context ∧ co.filename = filename ∧ co.ns = ns ∧
    co.triple = "x86_64" ∧
    co.functions.map Prod.fst = ns.cfgs.map CFG.identity := by
  rw [ClassicTarget.build_eq] at h
  obtain ⟨htr, hctx, hfn, hns, htrip, hfns⟩ :=
    emitLoop_ok (t := {}) ns.cfgs
      { context := context, filename := filename, ns := ns, triple := "x86_64",
        functions := [] }
      (ClassicTarget.emitLoop {}
        { context := context, filename := filename, ns := ns, triple := "x86_64",
          functions := [] } ns.cfgs).fst
      co (by rw [← h])
  refine ⟨?_, hctx, hfn, hns, htrip, by simpa using hfns⟩
  rw [ClassicTarget.buildTrace_eq, htr]

/-- C1: For every namespace `ns`, `ClassicTarget::build(filename, context,
ns)` first constructs an empty Code Object for the target's architecture
("x86_64"), then calls `emit_function` exactly once for each CFG in `ns`, in
the order the CFGs appear in the namespace (the call trace equals
`ns.cfgs`), mutating that single Code Object after each call (the recorded
identities are the CFGs' identities in namespace order), and finally
returns that Code Object.  Stated on the path on which the build returns
normally; a failing emission aborts the build (see C3). -/
theorem claim_C1_build_emits_each_cfg_once_in_order
    (filename : String) (context : Context) (ns : Namespace) (co : CodeObject)
    (h : ClassicTarget.build filename context ns = .ok co) :
    CodeObject.new context filename ns "x86_64" =
      .ok { context := context, filename := filename, ns := ns,
            triple := "x86_64", functions := [] } ∧
    ClassicTarget.buildTrace filename context ns = ns.cfgs ∧
    co.functions.map Prod.fst = ns.cfgs.map CFG.identity := by
  obtain ⟨htr, _, _, _, _, hfns⟩ := build_ok_spec h
  exact ⟨CodeObject.new_x86_64 context filename ns, htr, hfns⟩

/-- C2: For every well-formed namespace and supported architecture triple,
the build either returns a Code Object containing exactly one recorded
entry per CFG of the namespace (the recorded identities are exactly the
CFGs' identities, in order) with no function identity recorded twice, or
returns an error with nothing recorded. -/
theorem claim_C2_one_entry_per_cfg_or_error
    (filename : String) (context : Context) (ns : Namespace)
    (h : ns.wellFormed) :
    (∃ co, ClassicTarget.build filename context ns = .ok co ∧
        co.functions.map Prod.fst = ns.cfgs.map CFG.identity ∧
        (co.functions.map Prod.fst).Nodup) ∨
    (∃ e, ClassicTarget.build filename context ns = .error e) := by
  cases hr : ClassicTarget.build filename context ns with
  | ok co =>
    left
    obtain ⟨_, _, _, _, _, hfns⟩ := build_ok_spec hr
    exact ⟨co, rfl, hfns, by rw [hfns]; exact h.1⟩
  | error e => exact .inr ⟨e, rfl⟩

/-- C3: The build's result is either a completed Code Object or an error;
when instruction selection cannot lower a construct in some function of the
namespace, the whole build aborts with an error and no partial Code Object
is returned to the caller as a completed build. -/
theorem claim_C3_lowering_failure_aborts_build
    (filename : String) (context : Context) (ns : Namespace) (cfg : CFG)
    (e : BuildError) (hmem : cfg ∈ ns.cfgs) (hl : lowerCFG cfg = .error e) :
    ∃ e', ClassicTarget.build filename context ns = .error e' := by
  rw [ClassicTarget.build_eq]
  exact emitLoop_err ns.cfgs _ cfg e hmem hl

/-- C4: Building the same namespace twice with the same target is
deterministic: two runs of the build on equal inputs produce equal outputs;
in particular the two Code Objects have identical recorded function
identities and identical emitted function bodies (hence equivalent emitted
control flow, block and edge structure included). -/
theorem claim_C4_build_deterministic
    (filename : String) (context : Context) (ns : Namespace)
    (co₁ co₂ : CodeObject)
    (h₁ : ClassicTarget.build filename context ns = .ok co₁)
    (h₂ : ClassicTarget.build filename context ns = .ok co₂) :
    co₁ = co₂ ∧
    co₁.functions.map Prod.fst = co₂.functions.map Prod.fst ∧
    co₁.functions = co₂.functions := by
  rw [h₁] at h₂
  injection h₂ with h₂
  exact ⟨h₂, by rw [h₂], by rw [h₂]⟩

/-- C5: The build never mutates the namespace it is given: every
`emit_function` step leaves the namespace referenced by the code object
unchanged, and the namespace observed through the returned Code Object is
exactly the input namespace (its ordered sequence of CFGs included) — the
lowering subsystem only reads it. -/
theorem claim_C5_build_does_not_mutate_namespace :
    (∀ (t : ClassicTarget) (obj : CodeObject) (cfg : CFG) (obj' : CodeObject),
        ClassicTarget.emit_function t obj cfg = .ok obj' → obj'.ns = obj.ns) ∧
    (∀ (filename : String) (context : Context) (ns : Namespace)
        (co : CodeObject),
        ClassicTarget.build filename context ns = .ok co → co.ns = ns) := by
  constructor
  · intro t obj cfg obj' h
    obtain ⟨body, _, _, hobj'⟩ := emit_function_ok h
    rw [hobj']
  · intro filename context ns co h
    exact (build_ok_spec h).2.2.2.1

/-- C6: When the build invocation surface is given an unrecognized
architecture triple string, it fails with `UnsupportedArchitecture` and no
Code Object is constructed (no `.ok` result exists). -/
theorem claim_C6_unrecognized_triple_fails
    (filename : String) (context : Context) (ns : Namespace) (triple : String)
    (h : triple ∉ recognizedTriples) :
    buildWithTriple filename context ns triple =
      .error (.unsupportedArchitecture triple) := by
  unfold buildWithTriple CodeObject.new
  rw [if_neg h]

/-- C7: The concrete target is a stateless, pure strategy object: every two
`ClassicTarget` values are equal (the structure holds no fields), the result
of `emit_function` does not depend on which target value drives it, and all
mutation performed by an emission goes through the Code Object it is handed
(an emission changes only the object's function table — context, filename,
namespace and triple are untouched). -/
theorem claim_C7_target_stateless :
    (∀ a b : ClassicTarget, a = b) ∧
    (∀ (t t' : ClassicTarget) (obj : CodeObject) (cfg : CFG),
        ClassicTarget.emit_function t obj cfg =
          ClassicTarget.emit_function t' obj cfg) ∧
    (∀ (t : ClassicTarget) (obj : CodeObject) (cfg : CFG) (obj' : CodeObject),
        ClassicTarget.emit_function t obj cfg = .ok obj' →
        obj'.context = obj.context ∧ obj'.filename = obj.filename ∧
        obj'.ns = obj.ns ∧ obj'.triple = obj.triple) := by
  refine ⟨fun a b => rfl, fun t t' obj cfg => rfl, ?_⟩
  intro t obj cfg obj' h
  obtain ⟨body, _, _, hobj'⟩ := emit_function_ok h
  rw [hobj']
  exact ⟨rfl, rfl, rfl, rfl⟩

/-- C8: `ClassicTarget::build` always tags the Code Object it constructs
with the fixed architecture triple "x86_64": the caller has no parameter to
choose an architecture (`build` takes only a filename, a context and a
namespace), so every returned Code Object's triple is "x86_64". -/
theorem claim_C8_triple_is_x86_64
    (filename : String) (context : Context) (ns : Namespace) (co : CodeObject)
    (h : ClassicTarget.build filename context ns = .ok co) :
    co.triple = "x86_64" :=
  (build_ok_spec h).2.2.2.2.1

/-- C9: For a namespace whose sequence of CFGs is empty,
`ClassicTarget::build` performs zero `emit_function` calls (empty call
trace) and returns the freshly constructed empty Code Object — it does not
fail on an empty namespace. -/
theorem claim_C9_empty_namespace
    (filename : String) (context : Context) (ns : Namespace)
    (h : ns.cfgs = []) :
    ClassicTarget.build filename context ns =
      .ok { context := context, filename := filename, ns := ns,
            triple := "x86_64", functions := [] } ∧
    ClassicTarget.buildTrace filename context ns = [] := by
  rw [ClassicTarget.build_eq, ClassicTarget.buildTrace_eq, h]
  exact ⟨rfl, rfl⟩

/-- C10: The driver performs no deduplication or filtering of CFGs: for a
namespace containing two CFGs with the same function identity (the first of
which lowers), `emit_function` is invoked once per element — twice with
that identity — as witnessed by the call trace.  Upholding the
at-most-one-entry invariant is the namespace well-formedness obligation of
the caller, not the driver's. -/
theorem claim_C10_no_dedup_emit_called_per_element
    (filename : String) (context : Context) (ns : Namespace) (c₁ c₂ : CFG)
    (body : List MachineBlock) (hcfgs : ns.cfgs = [c₁, c₂])
    (hid : c₁.identity = c₂.identity) (hl : lowerCFG c₁ = .ok body) :
    ClassicTarget.buildTrace filename context ns = [c₁, c₂] ∧
    (ClassicTarget.buildTrace filename context ns).map CFG.identity =
      [c₁.identity, c₁.identity] := by
  have he₁ : ClassicTarget.emit_function {}
      { context := context, filename := filename, ns := ns, triple := "x86_64",
        functions := [] } c₁ =
      .ok { context := context, filename := filename, ns := ns,
            triple := "x86_64", functions := [(c₁.identity, body)] } := by
    unfold ClassicTarget.emit_function
    rw [hl]
    rfl
  have htr : ClassicTarget.buildTrace filename context ns = [c₁, c₂] := by
    rw [ClassicTarget.buildTrace_eq, hcfgs, emitLoop_cons_ok he₁]
    simp [emitLoop_single_fst]
  exact ⟨htr, by rw [htr]; simp [hid]⟩

/-- C1 witness at a concrete build: a two-function namespace builds
successfully, the trace covers both CFGs in order, and the recorded
identities are the namespace's identities in order. -/
theorem claim_C1_witness :
    CodeObject.new sampleContext "main.cj" sampleNS "x86_64" =
      .ok { context := sampleContext, filename := "main.cj", ns := sampleNS,
            triple := "x86_64", functions := [] } ∧
    ClassicTarget.buildTrace "main.cj" sampleContext sampleNS = sampleNS.cfgs ∧
    builtSample.functions.map Prod.fst = sampleNS.cfgs.map CFG.identity :=
  claim_C1_build_emits_each_cfg_once_in_order "main.cj" sampleContext sampleNS
    builtSample rfl

/-- C2 witness: the sample namespace is well-formed and its build lands in
the success disjunct. -/
theorem claim_C2_witness :
    sampleNS.wellFormed ∧
    ((∃ co, ClassicTarget.build "main.cj" sampleContext sampleNS = .ok co ∧
        co.functions.map Prod.fst = sampleNS.cfgs.map CFG.identity ∧
        (co.functions.map Prod.fst).Nodup) ∨
     (∃ e, ClassicTarget.build "main.cj" sampleContext sampleNS = .error e)) :=
  ⟨by decide,
   claim_C2_one_entry_per_cfg_or_error "main.cj" sampleContext sampleNS
     (by decide)⟩

/-- C3 witness: a namespace containing a CFG with an unmappable instruction
(opcode 7) makes the whole build abort with an error. -/
theorem claim_C3_witness :
    badCFG ∈ badNS.cfgs ∧
    lowerCFG badCFG = .error (.loweringError "broken" 7) ∧
    ∃ e', ClassicTarget.build "main.cj" sampleContext badNS = .error e' :=
  ⟨by decide, rfl,
   claim_C3_lowering_failure_aborts_build "main.cj" sampleContext badNS badCFG
     (.loweringError "broken" 7) (by decide) rfl⟩

/-- C4 witness: two runs of the build on the sample namespace yield the same
code object. -/
theorem claim_C4_witness :
    builtSample = builtSample ∧
    builtSample.functions.map Prod.fst = builtSample.functions.map Prod.fst ∧
    builtSample.functions = builtSample.functions :=
  claim_C4_build_deterministic "main.cj" sampleContext sampleNS builtSample
    builtSample rfl rfl

/-- C5 witness: one emission step and one whole build, both leaving the
namespace untouched. -/
theorem claim_C5_witness :
    afterMain.ns = emptySample.ns ∧ builtSample.ns = sampleNS :=
  ⟨claim_C5_build_does_not_mutate_namespace.1 {} emptySample mainCFG afterMain
     rfl,
   claim_C5_build_does_not_mutate_namespace.2 "main.cj" sampleContext sampleNS
     builtSample rfl⟩

/-- C6 witness: the triple "avr" is unrecognized and the build surface fails
with `UnsupportedArchitecture`. -/
theorem claim_C6_witness :
    "avr" ∉ recognizedTriples ∧
    buildWithTriple "main.cj" sampleContext sampleNS "avr" =
      .error (.unsupportedArchitecture "avr") :=
  ⟨by decide,
   claim_C6_unrecognized_triple_fails "main.cj" sampleContext sampleNS "avr"
     (by decide)⟩

/-- C7 witness: target values are equal, the driving value is irrelevant to
an emission, and a concrete emission changes only the function table. -/
theorem claim_C7_witness :
    ({} : ClassicTarget) = {} ∧
    ClassicTarget.emit_function {} emptySample helperCFG =
      ClassicTarget.emit_function {} emptySample helperCFG ∧
    (afterMain.context = emptySample.context ∧
     afterMain.filename = emptySample.filename ∧
     afterMain.ns = emptySample.ns ∧ afterMain.triple = emptySample.triple) :=
  ⟨claim_C7_target_stateless.1 {} {},
   claim_C7_target_stateless.2.1 {} {} emptySample helperCFG,
   claim_C7_target_stateless.2.2 {} emptySample mainCFG afterMain rfl⟩

/-- C8 witness: the sample build's code object carries triple "x86_64". -/
theorem claim_C8_witness : builtSample.triple = "x86_64" :=
  claim_C8_triple_is_x86_64 "main.cj" sampleContext sampleNS builtSample rfl

/-- C9 witness: the empty namespace builds to the empty code object with an
empty call trace. -/
theorem claim_C9_witness :
    ClassicTarget.build "main.cj" sampleContext emptyNS =
      .ok { context := sampleContext, filename := "main.cj", ns := emptyNS,
            triple := "x86_64", functions := [] } ∧
    ClassicTarget.buildTrace "main.cj" sampleContext emptyNS = [] :=
  claim_C9_empty_namespace "main.cj" sampleContext emptyNS rfl

/-- C10 witness: a namespace holding `mainCFG` twice gets two
`emit_function` calls, both with identity "main". -/
theorem claim_C10_witness :
    ClassicTarget.buildTrace "main.cj" sampleContext dupNS =
      [mainCFG, mainCFG] ∧
    (ClassicTarget.buildTrace "main.cj" sampleContext dupNS).map CFG.identity =
      [mainCFG.identity, mainCFG.identity] :=
  claim_C10_no_dedup_emit_called_per_element "main.cj" sampleContext dupNS
    mainCFG mainCFG [{ label := 0, code := [1, 2], succ := .term }] rfl rfl rfl
